import Mathlib

/-!
Verification of the sftpx async SFTP wrapper (src/sftpx).

Shallow embedding. Python `pathlib.Path` values are modelled by their
sequence of parts (`PyPath := List String`); remote and local file systems
are explicit data; every client method becomes a pure function. External
calls into paramiko are modelled either by an explicit outcome parameter
(for methods whose claim is about error translation) or by a concrete
remote-file-system semantics of the SFTP primitives (for `mkdir`/`put_dir`,
whose claims are about the effect on the remote tree). Each method returns,
besides its `Except` result, the number of transport-primitive invocations
it performed, so that "no network interaction" and "no automatic retry"
are expressible. Exception messages follow the source's f-strings, with
the interpolated path elided where it does not matter; the paramiko
`AttributeError` text for a `None` handle is paraphrased without quotes.
-/

deriving instance DecidableEq for Except

namespace Sftpx

/-- A Python `pathlib.Path`, modelled by its parts (pathlib stores exactly
this sequence; `/`-joining appends, `.parent` drops the last part,
`relative_to` strips a prefix). -/
abbrev PyPath := List String

/-- Python exceptions that the wrapped paramiko calls can raise, as the
`except` clauses of `client.py` distinguish them. `fileNotFoundError` is
the builtin raised by paramiko for SSH_FX_NO_SUCH_FILE (OSError with
errno ENOENT), `permissionError` the builtin for SSH_FX_PERMISSION_DENIED
(errno EACCES), `ioError` a plain OSError such as the SSH_FX_FAILURE that
creating an already-existing directory produces. -/
inductive PyExc where
  | fileNotFoundError (m : String)
  | permissionError (m : String)
  | isADirectoryError (m : String)
  | ioError (m : String)
  | authenticationException (m : String)
  | sshException (m : String)
  | otherException (m : String)
  deriving DecidableEq, Repr

/-- Python `str(e)`: the message carried by the exception. -/
def PyExc.msg : PyExc → String
  | .fileNotFoundError m => m
  | .permissionError m => m
  | .isADirectoryError m => m
  | .ioError m => m
  | .authenticationException m => m
  | .sshException m => m
  | .otherException m => m

/-- Errors a public method of `AsyncSFTP` can raise: the taxonomy of
`exceptions.py` (base `AsyncSFTPError` and its four subclasses, including
the custom `PermissionError`) plus the Python builtins the client raises
itself for local preconditions (`FileNotFoundError` in `put`,
`NotADirectoryError` in `put_dir`). -/
inductive SFTPRaise where
  | asyncSFTPError (m : String)
  | connectionError (m : String)
  | authenticationError (m : String)
  | fileTransferError (m : String)
  | permissionError (m : String)
  | fileNotFoundError (m : String)
  | notADirectoryError (m : String)
  deriving DecidableEq, Repr

/-- The error kind, forgetting the message. -/
inductive RaiseKind where
  | base
  | connection
  | authentication
  | fileTransfer
  | permission
  | fileNotFound
  | notADirectory
  deriving DecidableEq, Repr

def SFTPRaise.kind : SFTPRaise → RaiseKind
  | .asyncSFTPError _ => .base
  | .connectionError _ => .connection
  | .authenticationError _ => .authentication
  | .fileTransferError _ => .fileTransfer
  | .permissionError _ => .permission
  | .fileNotFoundError _ => .fileNotFound
  | .notADirectoryError _ => .notADirectory

/-- The kind of the raised error, `none` when the call returned normally. -/
def errKind {α : Type} : Except SFTPRaise α → Option RaiseKind
  | .error e => some e.kind
  | .ok _ => none

/-- Whether the call raised (any) error. -/
def raised {α : Type} : Except SFTPRaise α → Bool
  | .error _ => true
  | .ok _ => false

/-- Whether the call raised the custom `PermissionError` of
`exceptions.py`. -/
def raisedPermission {α : Type} : Except SFTPRaise α → Bool
  | .error (SFTPRaise.permissionError _) => true
  | _ => false

/-- The `AsyncSFTP` object of `client.py`: the constructor arguments stored
by `__init__` plus the three handle slots, initially `None` (modelled as
`false` = absent). Numeric configuration is abstracted to `Nat`; the
values are stored and, as in the source, `max_retries` and `retry_delay`
are never read by any method. -/
structure AsyncSFTP where
  hostname : String
  username : String
  password : Option String := none
  private_key_path : Option String := none
  port : Nat := 22
  timeout : Nat := 30
  max_retries : Nat := 3
  retry_delay : Nat := 1
  clientHandle : Bool := false
  transportHandle : Bool := false
  sftpHandle : Bool := false
  deriving DecidableEq, Repr

/-- Outcome of the paramiko connection sequence inside `connect`
(`SSHClient.connect` followed by `SFTPClient.from_transport`): either it
completes, or some call in it raises. -/
inductive ConnectOutcome where
  | success
  | raised (e : PyExc)
  deriving DecidableEq, Repr

/-- Embeds `AsyncSFTP.connect` (client.py lines 49-76): on success the client,
transport and sftp handles are set; the three `except` clauses translate
`paramiko.AuthenticationException` to `AuthenticationError`,
`paramiko.SSHException` to `ConnectionError` and anything else to the base
`AsyncSFTPError`, each embedding `str(e)`. `AuthenticationException` is a
subclass of `SSHException`; the disjoint constructors of `PyExc` together
with this match encode the clause order of the source. -/
def connect_method (s : AsyncSFTP) (o : ConnectOutcome) : Except SFTPRaise AsyncSFTP :=
  match o with
  | .success => .ok { s with clientHandle := true, transportHandle := true, sftpHandle := true }
  | .raised (.authenticationException m) =>
      .error (.authenticationError ("Authentication failed: " ++ m))
  | .raised (.sshException m) =>
      .error (.connectionError ("SSH connection failed: " ++ m))
  | .raised e =>
      .error (.asyncSFTPError ("Failed to establish SFTP connection: " ++ e.msg))

/-- Embeds `AsyncSFTP.close` (client.py lines 78-83): `if self._sftp:` close it,
`if self._client:` close it, in that order; the handle fields are not
cleared. The paramiko `close` primitives are idempotent and do not raise
(trusted collaborator), and `close` has no failure path of its own, so the
result is always `ok`; it carries the list of release actions performed,
in order. -/
def close_method (s : AsyncSFTP) : Except SFTPRaise (List String) :=
  .ok ((if s.sftpHandle then ["sftp.close"] else []) ++
       (if s.clientHandle then ["client.close"] else []))

/-- What the local path passed to `put` denotes on the local file system:
absent, a regular file, or a directory. `Path.exists()` is `isSome`. -/
inductive LocalKind where
  | regular
  | directory
  deriving DecidableEq, Repr

/-- Embeds `AsyncSFTP.put` (client.py lines 85-106): raises the builtin
`FileNotFoundError` when `local_path.exists()` is false, before touching
the transport; otherwise evaluates `self._sftp.put` inside the `try` — on
an unconnected session the attribute access on `None` raises
`AttributeError`, caught by `except Exception` and wrapped as
`FileTransferError` with zero transport invocations; on a connected
session the transport primitive runs once and any exception it raises is
wrapped as `FileTransferError` embedding `str(e)`. The primitive outcome
(which may carry a new remote state, for use by `put_dir`) is a
parameter. -/
def put_method {σ : Type} (s : AsyncSFTP) (localKind : Option LocalKind)
    (outcome : Except PyExc σ) : Except SFTPRaise σ × Nat :=
  match localKind with
  | none => (.error (.fileNotFoundError "Local file not found"), 0)
  | some _ =>
    if s.sftpHandle then
      match outcome with
      | .ok v => (.ok v, 1)
      | .error e => (.error (.fileTransferError ("Failed to upload file: " ++ e.msg)), 1)
    else
      (.error (.fileTransferError
        ("Failed to upload file: NoneType object has no attribute put")), 0)

/-- Embeds `AsyncSFTP.get` (client.py lines 108-127): no local precondition; the
transport primitive is evaluated inside the `try` and every exception —
including the `AttributeError` of an unconnected session — is wrapped as
`FileTransferError`. -/
def get_method (s : AsyncSFTP) (outcome : Except PyExc Unit) : Except SFTPRaise Unit × Nat :=
  if s.sftpHandle then
    match outcome with
    | .ok _ => (.ok (), 1)
    | .error e => (.error (.fileTransferError ("Failed to download file: " ++ e.msg)), 1)
  else
    (.error (.fileTransferError
      ("Failed to download file: NoneType object has no attribute get")), 0)

/-- Embeds `AsyncSFTP.exists` (client.py lines 160-169): probes `self._sftp.stat`;
returns `True` on success, `False` on the builtin `FileNotFoundError`,
and wraps every other exception — the builtin `PermissionError` included,
and the `AttributeError` of an unconnected session — as the base
`AsyncSFTPError`. -/
def exists_method (s : AsyncSFTP) (statOutcome : Except PyExc Unit) :
    Except SFTPRaise Bool × Nat :=
  if s.sftpHandle then
    match statOutcome with
    | .ok _ => (.ok true, 1)
    | .error (.fileNotFoundError _) => (.ok false, 1)
    | .error e =>
        (.error (.asyncSFTPError ("Failed to check path existence: " ++ e.msg)), 1)
  else
    (.error (.asyncSFTPError
      ("Failed to check path existence: NoneType object has no attribute stat")), 0)

/-- Embeds `AsyncSFTP.stat` (client.py lines 171-177): wraps every exception as
the base `AsyncSFTPError`. -/
def stat_method (s : AsyncSFTP) (outcome : Except PyExc Unit) :
    Except SFTPRaise Unit × Nat :=
  if s.sftpHandle then
    match outcome with
    | .ok _ => (.ok (), 1)
    | .error e => (.error (.asyncSFTPError ("Failed to get file attributes: " ++ e.msg)), 1)
  else
    (.error (.asyncSFTPError
      ("Failed to get file attributes: NoneType object has no attribute stat")), 0)

/-- Embeds `AsyncSFTP.listdir` (client.py lines 129-134): wraps every exception as
the base `AsyncSFTPError`. -/
def listdir_method (s : AsyncSFTP) (outcome : Except PyExc (List String)) :
    Except SFTPRaise (List String) × Nat :=
  if s.sftpHandle then
    match outcome with
    | .ok v => (.ok v, 1)
    | .error e => (.error (.asyncSFTPError ("Failed to list directory: " ++ e.msg)), 1)
  else
    (.error (.asyncSFTPError
      ("Failed to list directory: NoneType object has no attribute listdir")), 0)

/-- Embeds `AsyncSFTP.rmdir` (client.py lines 144-150): wraps every exception as
the base `AsyncSFTPError`. -/
def rmdir_method (s : AsyncSFTP) (outcome : Except PyExc Unit) :
    Except SFTPRaise Unit × Nat :=
  if s.sftpHandle then
    match outcome with
    | .ok _ => (.ok (), 1)
    | .error e => (.error (.asyncSFTPError ("Failed to remove directory: " ++ e.msg)), 1)
  else
    (.error (.asyncSFTPError
      ("Failed to remove directory: NoneType object has no attribute rmdir")), 0)

/-- Embeds `AsyncSFTP.remove` (client.py lines 152-158): wraps every exception as
the base `AsyncSFTPError`. -/
def remove_method (s : AsyncSFTP) (outcome : Except PyExc Unit) :
    Except SFTPRaise Unit × Nat :=
  if s.sftpHandle then
    match outcome with
    | .ok _ => (.ok (), 1)
    | .error e => (.error (.asyncSFTPError ("Failed to remove file: " ++ e.msg)), 1)
  else
    (.error (.asyncSFTPError
      ("Failed to remove file: NoneType object has no attribute remove")), 0)

/-- A local file-system entry, for the recursive enumerator: a regular
file, or a directory with named children. -/
inductive LocalEntry where
  | file
  | dir (children : List (String × LocalEntry))

/-- The regular files under a directory-children list, as paths relative
to that directory, in the deterministic order of the walk (the source
returns absolute paths; `put_dir` immediately takes them relative to the
root, so relative paths are carried directly). -/
def filesUnder : List (String × LocalEntry) → List PyPath
  | [] => []
  | (name, LocalEntry.file) :: rest => [name] :: filesUnder rest
  | (name, LocalEntry.dir cs) :: rest =>
      (filesUnder cs).map (fun p => name :: p) ++ filesUnder rest

/-- Embeds `get_files_recursive` (utils.py lines 20-33): raises the builtin
`FileNotFoundError` when the root does not exist (the source message
embeds the path, elided here); otherwise collects `item for item in
path.rglob(star) if item.is_file()`. On a root that is itself a regular
file, `rglob` yields nothing (pathlib returns an empty iterator for a
non-directory root), so the result is the empty list. The `except` around
the loop (mid-walk access errors) has no counterpart in this total
model. -/
def get_files_recursive (root : Option LocalEntry) : Except PyExc (List PyPath) :=
  match root with
  | none => .error (.fileNotFoundError "Path does not exist")
  | some LocalEntry.file => .ok []
  | some (LocalEntry.dir cs) => .ok (filesUnder cs)

/-- The remote file system seen by the SFTP server: the set of directory
paths (the root `[]` must be listed to exist) and the set of file
paths. -/
structure RemoteFS where
  dirs : List PyPath
  files : List PyPath
  deriving DecidableEq, Repr

/-- Embeds `paramiko.SFTPClient.mkdir`: creates a single directory level. The
server answers SSH_FX_FAILURE when the path already exists — paramiko
raises a plain OSError ("Failure") — and SSH_FX_NO_SUCH_FILE when the
parent is absent — paramiko raises the builtin `FileNotFoundError`. The
permission mode is passed through and does not affect existence, so the
model ignores it. -/
def sftp_mkdir (fs : RemoteFS) (p : PyPath) : Except PyExc RemoteFS :=
  if fs.dirs.contains p || fs.files.contains p then
    .error (.ioError "Failure")
  else if fs.dirs.contains p.dropLast then
    .ok { fs with dirs := p :: fs.dirs }
  else
    .error (.fileNotFoundError "No such file")

/-- Embeds `paramiko.SFTPClient.put` as it affects the remote tree: writes the
file when the parent directory exists and the path is not a directory;
otherwise the server answer makes paramiko raise. -/
def sftp_put_file (fs : RemoteFS) (p : PyPath) : Except PyExc RemoteFS :=
  if fs.dirs.contains p then
    .error (.ioError "Failure")
  else if fs.dirs.contains p.dropLast then
    .ok { fs with files := if fs.files.contains p then fs.files else p :: fs.files }
  else
    .error (.fileNotFoundError "No such file")

/-- Embeds `AsyncSFTP.mkdir` (client.py lines 136-142): runs the transport
`mkdir` primitive inside a `try` and wraps every exception — the
already-exists OSError included — as the base `AsyncSFTPError`; on an
unconnected session the attribute access raises first. -/
def mkdir_method (s : AsyncSFTP) (fs : RemoteFS) (p : PyPath) :
    Except SFTPRaise RemoteFS × Nat :=
  if s.sftpHandle then
    match sftp_mkdir fs p with
    | .ok fs2 => (.ok fs2, 1)
    | .error e => (.error (.asyncSFTPError ("Failed to create directory: " ++ e.msg)), 1)
  else
    (.error (.asyncSFTPError
      ("Failed to create directory: NoneType object has no attribute mkdir")), 0)

/-- The loop body of `put_dir` over the enumerated relative file paths:
for each file, `remote_file_path = remote_base / relative_path`, then
`self.mkdir(remote_file_path.parent, mode=511)` — whose failure, including
an already-existing parent, aborts the whole loop — then `self.put(file,
remote_file_path)`. The `put` of an enumerated file has an existing
regular local file, and its transfer outcome is the remote-file-system
semantics of the `put` primitive. The accumulated `Nat` counts transport
invocations. -/
def put_dir_go (s : AsyncSFTP) (base : PyPath) :
    RemoteFS → List PyPath → Nat → Except SFTPRaise RemoteFS × Nat
  | fs, [], n => (.ok fs, n)
  | fs, rel :: rest, n =>
    match mkdir_method s fs (base ++ rel).dropLast with
    | (.error e, k) => (.error e, n + k)
    | (.ok fs1, k) =>
      match put_method s (some LocalKind.regular) (sftp_put_file fs1 (base ++ rel)) with
      | (.error e, k2) => (.error e, n + k + k2)
      | (.ok fs2, k2) => put_dir_go s base fs2 rest (n + k + k2)

/-- Embeds `AsyncSFTP.put_dir` (client.py lines 179-201): raises the builtin
`NotADirectoryError` unless `local_path.is_dir()`; then enumerates the
local files via `get_files_recursive` (which cannot fail here, the root
being a directory) and runs the upload loop. -/
def put_dir_method (s : AsyncSFTP) (fs : RemoteFS) (root : Option LocalEntry)
    (base : PyPath) : Except SFTPRaise RemoteFS × Nat :=
  match root with
  | some (LocalEntry.dir cs) => put_dir_go s base fs (filesUnder cs) 0
  | _ => (.error (.notADirectoryError "Local path is not a directory"), 0)

/-- The character replacement performed by `str(path).replace` in
`normalize_path`: every backslash becomes a forward slash, every other
character is kept. -/
def replSep (c : Char) : Char := if c = '\\' then '/' else c

/-- Embeds `normalize_path` (utils.py lines 15-18): `str(path).replace` with
single-character arguments, i.e. the character-wise map of `replSep` over
the string. -/
def normalize_path (s : String) : String := String.mk (s.data.map replSep)

/-- Joining character-list segments with a separator character, the shape
of a path string made of separator-free segments. -/
def joinSegs (c : Char) : List (List Char) → List Char
  | [] => []
  | [l] => l
  | l :: l2 :: ls => l ++ c :: joinSegs c (l2 :: ls)

/-- A session with both handles set, as a successful `connect` leaves
it. -/
def connectedSession : AsyncSFTP :=
  { hostname := "h", username := "u", clientHandle := true, transportHandle := true,
    sftpHandle := true }

/-- A freshly constructed, never-connected session: all three handle
slots are `None`. -/
def freshSession : AsyncSFTP := { hostname := "h", username := "u" }


/-- Python `str(e)` for the errors the client itself raises: the message
carried by the exception (`get_dir` embeds it when re-wrapping a failure
of a nested call). -/
def SFTPRaise.msg : SFTPRaise → String
  | .asyncSFTPError m => m
  | .connectionError m => m
  | .authenticationError m => m
  | .fileTransferError m => m
  | .permissionError m => m
  | .fileNotFoundError m => m
  | .notADirectoryError m => m

mutual

/-- A remote subtree as `get_dir` observes it through a consistent server:
`listdir` of a directory returns its children's names, the `stat` probe of
a listed child succeeds, `isdir` reports the child's kind, and a file
child carries the outcome of its `get` transfer as a parameter. The
children sequence is a mutual inductive (`RemoteListing`) rather than a
`List`, so the walk below is structurally recursive. -/
inductive RemoteEntry where
  | file (getOutcome : Except PyExc Unit)
  | dir (children : RemoteListing)

/-- The named children of a remote directory, as `listdir` enumerates
them. -/
inductive RemoteListing where
  | nil
  | cons (name : String) (entry : RemoteEntry) (rest : RemoteListing)

end

/-- The names of a remote directory listing, in order: what `listdir`
returns for it. -/
def RemoteListing.names : RemoteListing → List String
  | .nil => []
  | .cons name _ rest => name :: names rest

/-- Sequencing of `get_dir`: the result of the unwrapped `self.listdir`
call, then — only when it succeeded — the per-item loop, with the
transport-invocation counts added. -/
def listdir_then (ld : Except SFTPRaise (List String) × Nat)
    (items : Except SFTPRaise Unit × Nat) : Except SFTPRaise Unit × Nat :=
  match ld with
  | (Except.error e, k) => (Except.error e, k)
  | (Except.ok _, k) =>
    match items with
    | (r, k2) => (r, k + k2)

/-- Outcome of one item of the `get_dir` loop: `res` is the result of the
branch taken after the `isdir` probe (the `get` of a file, or the nested
`get_dir` of a directory), `k` the transport invocations of the preceding
`stat`, the `+ 1` the `isdir` probe itself, and `cont` the processing of
the remaining items. A failure of the branch is caught by the loop's
`except` and re-raised as `FileTransferError` embedding `str(e)`,
aborting the loop. -/
def item_step (res : Except SFTPRaise Unit × Nat) (k : Nat)
    (cont : Except SFTPRaise Unit × Nat) : Except SFTPRaise Unit × Nat :=
  match res with
  | (Except.error e, k2) =>
      (Except.error (SFTPRaise.fileTransferError
        ("Failed to download directory: " ++ e.msg)), k + 1 + k2)
  | (Except.ok _, k2) => (cont.1, k + 1 + k2 + cont.2)

mutual

/-- Embeds the branch of the `get_dir` loop taken after the `isdir` probe
(client.py lines 226-229): `self.get_dir(remote_item, local_item)` when
the item is a directory — its body, the unwrapped `listdir` followed by
the loop over the children, inlined here as the same `listdir_then`
composition `get_dir_method` consists of — and `self.get(remote_item,
local_item)` when it is a file, with the transfer outcome carried by the
tree. -/
def get_dir_entry (s : AsyncSFTP) : RemoteEntry → Except SFTPRaise Unit × Nat
  | RemoteEntry.file o => get_method s o
  | RemoteEntry.dir cs =>
      listdir_then (listdir_method s (Except.ok cs.names)) (get_dir_items s cs)

/-- Embeds the per-item loop of `AsyncSFTP.get_dir` (client.py lines
219-231): for each listed item, inside a `try`, `self.stat` (whose own
wrapped failure — e.g. the `AttributeError` of an unconnected session — is
re-wrapped here), then the raw `self._sftp.isdir` probe (one transport
invocation when connected; on an unconnected session the attribute access
on `None` raises, caught and wrapped), then the branch `get_dir_entry`.
Local directory creation (`mkdir(parents=True, exist_ok=True)`) touches no
transport and cannot fail in this model, so it is elided. -/
def get_dir_items (s : AsyncSFTP) : RemoteListing → Except SFTPRaise Unit × Nat
  | RemoteListing.nil => (Except.ok (), 0)
  | RemoteListing.cons _ entry rest =>
    match stat_method s (Except.ok ()) with
    | (Except.error e, k) =>
        (Except.error (SFTPRaise.fileTransferError
          ("Failed to download directory: " ++ e.msg)), k)
    | (Except.ok _, k) =>
      if s.sftpHandle then
        item_step (get_dir_entry s entry) k (get_dir_items s rest)
      else
        (Except.error (SFTPRaise.fileTransferError
          ("Failed to download directory: NoneType object has no attribute isdir")), k)

end

/-- Embeds `AsyncSFTP.get_dir` (client.py lines 203-231): after the local
directory creation, `self.listdir(remote_path)` runs outside any `try`, so
its wrapped `AsyncSFTPError` — in particular the one of a never-connected
session — propagates as is; on success the per-item loop processes the
listed children. The `listdir_then` composition here is the same
expression `get_dir_entry` uses at a directory child, so the inlined
recursion coincides with this method. -/
def get_dir_method (s : AsyncSFTP) (children : RemoteListing) :
    Except SFTPRaise Unit × Nat :=
  listdir_then (listdir_method s (Except.ok children.names))
    (get_dir_items s children)


/-- Helper: the separator replacement never produces a backslash. -/
theorem replSep_ne_bs (c : Char) : replSep c ≠ '\\' := by
  unfold replSep
  by_cases h : c = '\\'
  · simp [h]
  · simp [h]

/-- Helper: the separator replacement is idempotent on characters. -/
theorem replSep_idem (c : Char) : replSep (replSep c) = replSep c := by
  by_cases h : c = '\\'
  · subst h; decide
  · simp [replSep, h]

/-- Helper: mapping the separator replacement over a backslash-free
character list is the identity. -/
theorem map_replSep_of_no_bs (l : List Char) (h : '\\' ∉ l) : l.map replSep = l := by
  induction l with
  | nil => rfl
  | cons c cs ih =>
    simp only [List.mem_cons, not_or] at h
    have hc : replSep c = c := by
      unfold replSep
      exact if_neg (fun hcc => h.1 hcc.symm)
    simp only [List.map_cons, hc, ih h.2]

/-- Helper: replacing separators in a backslash-joined sequence of
backslash-free segments yields the slash-joined sequence. -/
theorem joinSegs_map_replSep (segs : List (List Char)) (h : ∀ l ∈ segs, '\\' ∉ l) :
    (joinSegs '\\' segs).map replSep = joinSegs '/' segs := by
  induction segs with
  | nil => rfl
  | cons l ls ih =>
    cases ls with
    | nil =>
      simp only [joinSegs]
      exact map_replSep_of_no_bs l (h l (List.mem_cons_self l []))
    | cons l2 ls2 =>
      have hbs : replSep '\\' = '/' := by decide
      simp only [joinSegs, List.map_append, List.map_cons]
      rw [map_replSep_of_no_bs l (h l (List.mem_cons_self _ _)), hbs,
        ih (fun x hx => h x (List.mem_cons_of_mem _ hx))]

/-- Claim C8: the path normalizer is pure and, for every input, replaces
every backslash by a forward slash while preserving segment order and
content; it is idempotent, and passes the root marker and the
current-directory marker through unchanged. -/
theorem C8_normalize_path_canonical :
    (∀ s : String, '\\' ∉ (normalize_path s).data) ∧
    normalize_path "a\\b\\c.txt" = "a/b/c.txt" ∧
    (∀ s : String, normalize_path (normalize_path s) = normalize_path s) ∧
    normalize_path "/" = "/" ∧
    normalize_path "." = "." ∧
    (∀ segs : List (List Char), (∀ l ∈ segs, '\\' ∉ l) →
      normalize_path (String.mk (joinSegs '\\' segs)) = String.mk (joinSegs '/' segs)) := by
  refine ⟨?_, by decide, ?_, by decide, by decide, ?_⟩
  · intro s hmem
    unfold normalize_path at hmem
    obtain ⟨c, _, hc⟩ := List.mem_map.mp hmem
    exact replSep_ne_bs c hc
  · intro s
    unfold normalize_path
    congr 1
    rw [List.map_map]
    exact List.map_congr_left (fun c _ => replSep_idem c)
  · intro segs h
    unfold normalize_path
    congr 1
    exact joinSegs_map_replSep segs h

/-- Witness for C8: the segment-preservation part at a concrete segment
list. -/
theorem C8_normalize_path_canonical_witness :
    normalize_path (String.mk (joinSegs '\\' [['a'], ['b', 'c']])) =
      String.mk (joinSegs '/' [['a'], ['b', 'c']]) :=
  C8_normalize_path_canonical.2.2.2.2.2 [['a'], ['b', 'c']] (by decide)

/-- Claim C2 as stated is false: enumerating a root that is itself a
regular file yields the empty sequence (the recursive glob returns nothing
for a non-directory root), not a one-element sequence containing the
file. -/
theorem C2_counterexample :
    get_files_recursive (some LocalEntry.file) = Except.ok ([] : List PyPath) ∧
    ∀ p : PyPath, get_files_recursive (some LocalEntry.file) ≠ Except.ok [p] := by
  refine ⟨rfl, fun p hp => ?_⟩
  simp [get_files_recursive] at hp

/-- Claim C2 amended: the enumerator fails with the builtin
`FileNotFoundError` when the root does not exist, returns the empty
sequence for an empty directory, and also returns the empty sequence
(not a one-element one) when the root is itself a regular file. -/
theorem C2_enumerator_behavior :
    get_files_recursive none = Except.error (PyExc.fileNotFoundError "Path does not exist") ∧
    get_files_recursive (some (LocalEntry.dir [])) = Except.ok ([] : List PyPath) ∧
    get_files_recursive (some LocalEntry.file) = Except.ok ([] : List PyPath) := by
  refine ⟨rfl, ?_, rfl⟩
  simp [get_files_recursive, filesUnder]


/-- Claim C1 is contradicted by the code (its own comment says it creates
parent directories "if they don\u0027t exist"): `put_dir` calls `mkdir` on the
direct parent of every file unconditionally, `mkdir` wraps the
already-exists failure of the transport as a raised `AsyncSFTPError`, and
the whole operation aborts. First conjunct: the 3-file tree of the spec
(`file1.txt`, `dir1/file2.txt`, `dir1/subdir/file3.txt`) uploaded onto an
already-existing remote base `r` fails on the very first `mkdir r` with
zero files uploaded. Second conjunct: two files in the same directory onto
a fresh base fail on the second `mkdir r` after one file, never uploading
the other. -/
theorem C1_put_dir_mkdir_bug :
    put_dir_method connectedSession { dirs := [[], ["r"]], files := [] }
      (some (LocalEntry.dir [("file1.txt", LocalEntry.file),
        ("dir1", LocalEntry.dir [("file2.txt", LocalEntry.file),
          ("subdir", LocalEntry.dir [("file3.txt", LocalEntry.file)])])])) ["r"] =
      (Except.error (SFTPRaise.asyncSFTPError "Failed to create directory: Failure"), 1) ∧
    put_dir_method connectedSession { dirs := [[]], files := [] }
      (some (LocalEntry.dir [("a.txt", LocalEntry.file), ("b.txt", LocalEntry.file)])) ["r"] =
      (Except.error (SFTPRaise.asyncSFTPError "Failed to create directory: Failure"), 3) := by
  constructor
  · simp only [put_dir_method, filesUnder, List.map_cons, List.map_nil, List.cons_append,
      List.nil_append, List.append_nil]
    decide
  · simp only [put_dir_method, filesUnder, List.map_cons, List.map_nil, List.cons_append,
      List.nil_append, List.append_nil]
    decide

/-- Claim C3: `connect` classifies failures in three tiers — an
authentication failure raises `AuthenticationError`, any other
handshake/transport failure raises `ConnectionError`, and every remaining
failure is wrapped as the base `AsyncSFTPError`, each carrying the
underlying message. -/
theorem C3_connect_error_tiers :
    (∀ (s : AsyncSFTP) (m : String),
      connect_method s (ConnectOutcome.raised (PyExc.authenticationException m)) =
        Except.error (SFTPRaise.authenticationError ("Authentication failed: " ++ m))) ∧
    (∀ (s : AsyncSFTP) (m : String),
      connect_method s (ConnectOutcome.raised (PyExc.sshException m)) =
        Except.error (SFTPRaise.connectionError ("SSH connection failed: " ++ m))) ∧
    (∀ (s : AsyncSFTP) (e : PyExc),
      (∀ m, e ≠ PyExc.authenticationException m) → (∀ m, e ≠ PyExc.sshException m) →
      connect_method s (ConnectOutcome.raised e) =
        Except.error (SFTPRaise.asyncSFTPError
          ("Failed to establish SFTP connection: " ++ e.msg))) := by
  refine ⟨fun _ _ => rfl, fun _ _ => rfl, fun s e h1 h2 => ?_⟩
  cases e with
  | authenticationException m => exact absurd rfl (h1 m)
  | sshException m => exact absurd rfl (h2 m)
  | fileNotFoundError m => rfl
  | permissionError m => rfl
  | isADirectoryError m => rfl
  | ioError m => rfl
  | otherException m => rfl

/-- Witness for C3: the catch-all tier at a concrete non-auth, non-ssh
exception. -/
theorem C3_connect_error_tiers_witness :
    connect_method freshSession (ConnectOutcome.raised (PyExc.ioError "boom")) =
      Except.error (SFTPRaise.asyncSFTPError
        ("Failed to establish SFTP connection: " ++ "boom")) :=
  C3_connect_error_tiers.2.2 freshSession (PyExc.ioError "boom")
    (fun _ h => nomatch h) (fun _ h => nomatch h)

/-- Claim C4 as stated is false: `put_dir` is a transfer operation, and on
a never-connected session with an empty local directory it enumerates no
files, performs no transport interaction, raises nothing and returns — a
silent no-op. -/
theorem C4_counterexample :
    put_dir_method freshSession { dirs := [[]], files := [] }
      (some (LocalEntry.dir [])) ["r"] =
      (Except.ok { dirs := [[]], files := [] }, 0) ∧
    raised (put_dir_method freshSession { dirs := [[]], files := [] }
      (some (LocalEntry.dir [])) ["r"]).1 = false := by
  constructor
  · simp only [put_dir_method, filesUnder]
    decide
  · simp only [put_dir_method, filesUnder]
    decide

/-- Claim C4 amended: on a never-connected session every transfer
operation fails deterministically with an explicit raised error — `put`
(whatever the local path denotes), `get`, `get_dir` (whose unconditional
`listdir` call raises a wrapped `AsyncSFTPError` before any item is
processed), and `put_dir` of any local tree containing at least one file —
with the sole exception, forced by the counterexample, of `put_dir` of a
local tree with no files, which performs no transport interaction and
returns silently. -/
theorem C4_unconnected_fails :
    (∀ (s : AsyncSFTP) (lk : Option LocalKind) (o : Except PyExc Unit),
      s.sftpHandle = false → raised (put_method s lk o).1 = true) ∧
    (∀ (s : AsyncSFTP) (o : Except PyExc Unit),
      s.sftpHandle = false → raised (get_method s o).1 = true) ∧
    (∀ (s : AsyncSFTP) (fs : RemoteFS) (cs : List (String × LocalEntry)) (base : PyPath),
      s.sftpHandle = false → filesUnder cs ≠ [] →
      raised (put_dir_method s fs (some (LocalEntry.dir cs)) base).1 = true) ∧
    (∀ (s : AsyncSFTP) (children : RemoteListing),
      s.sftpHandle = false → raised (get_dir_method s children).1 = true) := by
  refine ⟨fun s lk o hs => ?_, fun s o hs => ?_, fun s fs cs base hs hne => ?_,
    fun s children hs => ?_⟩
  · cases lk with
    | none => rfl
    | some k => simp [put_method, hs, raised]
  · simp [get_method, hs, raised]
  · simp only [put_dir_method]
    cases hfc : filesUnder cs with
    | nil => exact absurd hfc hne
    | cons rel rest => simp [put_dir_go, mkdir_method, hs, raised]
  · simp [get_dir_method, listdir_then, listdir_method, hs, raised]

/-- Witness for C4: a never-connected session with a one-file local tree
for `put_dir` and a one-file remote tree for `get_dir`. -/
theorem C4_unconnected_fails_witness :
    raised (put_dir_method freshSession { dirs := [[]], files := [] }
      (some (LocalEntry.dir [("a.txt", LocalEntry.file)])) ["r"]).1 = true ∧
    raised (get_dir_method freshSession (RemoteListing.cons "f.txt"
      (RemoteEntry.file (Except.ok ())) RemoteListing.nil)).1 = true :=
  ⟨C4_unconnected_fails.2.2.1 freshSession { dirs := [[]], files := [] }
    [("a.txt", LocalEntry.file)] ["r"] rfl
    (by simp [filesUnder]),
   C4_unconnected_fails.2.2.2 freshSession (RemoteListing.cons "f.txt"
    (RemoteEntry.file (Except.ok ())) RemoteListing.nil) rfl⟩

/-- Claim C5: `close` raises no error on any session — in particular on a
never-connected one, where it releases nothing, and on a second call in
succession (the handle fields are unchanged by `close`, so a repeated call
is the same computation, again error-free) — and when both handles are
held it releases the file-operations handle first and the client owning
the transport second. -/
theorem C5_close_idempotent :
    (∀ s : AsyncSFTP, raised (close_method s) = false) ∧
    (∀ s : AsyncSFTP, s.sftpHandle = false → s.clientHandle = false →
      close_method s = Except.ok []) ∧
    (∀ s : AsyncSFTP, s.sftpHandle = true → s.clientHandle = true →
      close_method s = Except.ok ["sftp.close", "client.close"]) := by
  refine ⟨fun s => rfl, fun s h1 h2 => ?_, fun s h1 h2 => ?_⟩ <;>
    simp [close_method, h1, h2]

/-- Witness for C5: a never-connected and a connected session. -/
theorem C5_close_idempotent_witness :
    close_method freshSession = Except.ok [] ∧
    close_method connectedSession = Except.ok ["sftp.close", "client.close"] :=
  ⟨C5_close_idempotent.2.1 freshSession rfl rfl,
   C5_close_idempotent.2.2 connectedSession rfl rfl⟩


/-- Claim C6 as stated is false: the only local precondition `put` checks
is `local_path.exists()`. A local path that exists but is a directory —
not a readable regular file — passes the check, so the call does not fail
with NotFound: the transfer is delegated to the transport (one
invocation). -/
theorem C6_counterexample :
    put_method connectedSession (some LocalKind.directory) (Except.ok ()) =
      (Except.ok (), 1) ∧
    errKind (put_method connectedSession (some LocalKind.directory)
      (Except.ok () : Except PyExc Unit)).1 = none :=
  ⟨rfl, rfl⟩

/-- Claim C6 amended: `put` fails with the builtin `FileNotFoundError`,
with zero transport interactions, exactly when the local path does not
exist; any existing local path (regular file or not) passes the
precondition, after which the transfer is delegated once and any
transport-level failure is re-raised as `FileTransferError` carrying the
underlying message. -/
theorem C6_put_local_precondition :
    (∀ (s : AsyncSFTP) (o : Except PyExc Unit),
      put_method s none o =
        (Except.error (SFTPRaise.fileNotFoundError "Local file not found"), 0)) ∧
    (∀ (s : AsyncSFTP) (k : LocalKind) (e : PyExc), s.sftpHandle = true →
      put_method s (some k) (Except.error e : Except PyExc Unit) =
        (Except.error (SFTPRaise.fileTransferError
          ("Failed to upload file: " ++ e.msg)), 1)) ∧
    (∀ (s : AsyncSFTP) (k : LocalKind), s.sftpHandle = true →
      put_method s (some k) (Except.ok () : Except PyExc Unit) = (Except.ok (), 1)) := by
  refine ⟨fun s o => rfl, fun s k e hs => ?_, fun s k hs => ?_⟩ <;>
    simp [put_method, hs]

/-- Witness for C6: a connected session, an existing regular file and a
permission-denied transport failure. -/
theorem C6_put_local_precondition_witness :
    put_method connectedSession (some LocalKind.regular)
      (Except.error (PyExc.permissionError "denied") : Except PyExc Unit) =
      (Except.error (SFTPRaise.fileTransferError
        ("Failed to upload file: " ++ "denied")), 1) :=
  C6_put_local_precondition.2.1 connectedSession LocalKind.regular
    (PyExc.permissionError "denied") rfl

/-- Claim C7: on a connected session, `exists` returns `false` exactly
when the metadata probe reports not-found; it returns `true` when the
probe succeeds; and every other probe failure — permission denied
included — is re-raised as the base `AsyncSFTPError`, never conflated with
not-found. -/
theorem C7_exists_probe (s : AsyncSFTP) (hs : s.sftpHandle = true) :
    (∀ o : Except PyExc Unit,
      ((exists_method s o).1 = Except.ok false ↔
        ∃ m, o = Except.error (PyExc.fileNotFoundError m))) ∧
    exists_method s (Except.ok ()) = (Except.ok true, 1) ∧
    (∀ e : PyExc, (∀ m, e ≠ PyExc.fileNotFoundError m) →
      exists_method s (Except.error e : Except PyExc Unit) =
        (Except.error (SFTPRaise.asyncSFTPError
          ("Failed to check path existence: " ++ e.msg)), 1)) ∧
    (∀ m : String, exists_method s (Except.error (PyExc.permissionError m)) =
      (Except.error (SFTPRaise.asyncSFTPError
        ("Failed to check path existence: " ++ m)), 1)) := by
  refine ⟨fun o => ?_, by simp [exists_method, hs], fun e he => ?_, fun m => ?_⟩
  · constructor
    · intro h
      cases o with
      | ok v => simp [exists_method, hs] at h
      | error e =>
        cases e with
        | fileNotFoundError m => exact ⟨m, rfl⟩
        | permissionError m => simp [exists_method, hs] at h
        | isADirectoryError m => simp [exists_method, hs] at h
        | ioError m => simp [exists_method, hs] at h
        | authenticationException m => simp [exists_method, hs] at h
        | sshException m => simp [exists_method, hs] at h
        | otherException m => simp [exists_method, hs] at h
    · rintro ⟨m, rfl⟩
      simp [exists_method, hs]
  · cases e with
    | fileNotFoundError m => exact absurd rfl (he m)
    | permissionError m => simp [exists_method, hs, PyExc.msg]
    | isADirectoryError m => simp [exists_method, hs, PyExc.msg]
    | ioError m => simp [exists_method, hs, PyExc.msg]
    | authenticationException m => simp [exists_method, hs, PyExc.msg]
    | sshException m => simp [exists_method, hs, PyExc.msg]
    | otherException m => simp [exists_method, hs, PyExc.msg]
  · simp [exists_method, hs, PyExc.msg]

/-- Witness for C7: a connected session and a permission-denied probe. -/
theorem C7_exists_probe_witness :
    exists_method connectedSession (Except.error (PyExc.permissionError "denied")) =
      (Except.error (SFTPRaise.asyncSFTPError
        ("Failed to check path existence: " ++ "denied")), 1) :=
  (C7_exists_probe connectedSession rfl).2.2.2 "denied"


/-- Helper: `put` reads no session field other than the sftp handle. -/
theorem put_method_handle_congr {σ : Type} (s t : AsyncSFTP)
    (h : s.sftpHandle = t.sftpHandle) (lk : Option LocalKind) (o : Except PyExc σ) :
    put_method s lk o = put_method t lk o := by
  cases lk with
  | none => rfl
  | some k => simp only [put_method, h]

/-- Helper: `mkdir` reads no session field other than the sftp handle. -/
theorem mkdir_method_handle_congr (s t : AsyncSFTP) (h : s.sftpHandle = t.sftpHandle)
    (fs : RemoteFS) (p : PyPath) : mkdir_method s fs p = mkdir_method t fs p := by
  simp only [mkdir_method, h]

/-- Helper: the `put_dir` loop reads no session field other than the sftp
handle. -/
theorem put_dir_go_handle_congr (files : List PyPath) (s t : AsyncSFTP)
    (h : s.sftpHandle = t.sftpHandle) (base : PyPath) :
    ∀ (fs : RemoteFS) (n : Nat), put_dir_go s base fs files n = put_dir_go t base fs files n := by
  induction files with
  | nil => intro fs n; rfl
  | cons rel rest ih =>
    intro fs n
    simp only [put_dir_go]
    rw [mkdir_method_handle_congr s t h fs (base ++ rel).dropLast]
    split
    · rfl
    · rename_i fs1 k1 heq
      rw [put_method_handle_congr s t h (some LocalKind.regular)
        (sftp_put_file fs1 (base ++ rel))]
      split
      · rfl
      · rename_i fs2 k2 heq2
        exact ih fs2 (n + k1 + k2)

/-- Helper: `put` invokes its transport primitive at most once. -/
theorem put_method_count {σ : Type} (s : AsyncSFTP) (lk : Option LocalKind)
    (o : Except PyExc σ) : (put_method s lk o).2 ≤ 1 := by
  cases lk with
  | none => simp [put_method]
  | some k =>
    by_cases hs : s.sftpHandle = true
    · cases o <;> simp [put_method, hs]
    · simp [put_method, hs]

/-- Helper: `exists` invokes its transport primitive at most once. -/
theorem exists_method_count (s : AsyncSFTP) (o : Except PyExc Unit) :
    (exists_method s o).2 ≤ 1 := by
  by_cases hs : s.sftpHandle = true
  · cases o with
    | ok v => simp [exists_method, hs]
    | error e => cases e <;> simp [exists_method, hs]
  · simp [exists_method, hs]

/-- Helper: `stat` reads no session field other than the sftp handle. -/
theorem stat_method_handle_congr (s t : AsyncSFTP) (h : s.sftpHandle = t.sftpHandle)
    (o : Except PyExc Unit) : stat_method s o = stat_method t o := by
  simp only [stat_method, h]

/-- Helper: `get` reads no session field other than the sftp handle. -/
theorem get_method_handle_congr (s t : AsyncSFTP) (h : s.sftpHandle = t.sftpHandle)
    (o : Except PyExc Unit) : get_method s o = get_method t o := by
  simp only [get_method, h]

/-- Helper: `listdir` reads no session field other than the sftp
handle. -/
theorem listdir_method_handle_congr (s t : AsyncSFTP) (h : s.sftpHandle = t.sftpHandle)
    (o : Except PyExc (List String)) : listdir_method s o = listdir_method t o := by
  simp only [listdir_method, h]

mutual

/-- Helper: the branch of the `get_dir` loop reads no session field other
than the sftp handle. -/
theorem get_dir_entry_handle_congr (s t : AsyncSFTP) (h : s.sftpHandle = t.sftpHandle) :
    (e : RemoteEntry) → get_dir_entry s e = get_dir_entry t e
  | RemoteEntry.file o => by
      simp only [get_dir_entry, get_method_handle_congr s t h o]
  | RemoteEntry.dir cs => by
      simp only [get_dir_entry, listdir_method_handle_congr s t h,
        get_dir_items_handle_congr s t h cs]

/-- Helper: the `get_dir` walk reads no session field other than the sftp
handle. -/
theorem get_dir_items_handle_congr (s t : AsyncSFTP) (h : s.sftpHandle = t.sftpHandle) :
    (l : RemoteListing) → get_dir_items s l = get_dir_items t l
  | RemoteListing.nil => by simp only [get_dir_items]
  | RemoteListing.cons name entry rest => by
      simp only [get_dir_items]
      rw [stat_method_handle_congr s t h (Except.ok ()), h,
        get_dir_entry_handle_congr s t h entry, get_dir_items_handle_congr s t h rest]

end

/-- Helper: `get_dir` reads no session field other than the sftp
handle. -/
theorem get_dir_method_handle_congr (s t : AsyncSFTP) (h : s.sftpHandle = t.sftpHandle)
    (children : RemoteListing) :
    get_dir_method s children = get_dir_method t children := by
  simp only [get_dir_method, listdir_method_handle_congr s t h,
    get_dir_items_handle_congr s t h children]

/-- Claim C9: no public operation retries automatically. Every method of
the session — the single-file and metadata operations, the composite
`put_dir` and `get_dir` walks, and `close` — gives identical results
whatever the stored `max_retries`/`retry_delay` values (the fields are
stored by the constructor and never consulted); the single-primitive
operations invoke their transport primitive at most once per call, `close`
performs each of its two release actions at most once, and the failure
classification of `connect` is likewise independent of the retry
fields. -/
theorem C9_no_retry :
    ∀ (s : AsyncSFTP) (r d : Nat),
      (∀ (lk : Option LocalKind) (o : Except PyExc Unit),
        put_method { s with max_retries := r, retry_delay := d } lk o = put_method s lk o ∧
        (put_method s lk o).2 ≤ 1) ∧
      (∀ o : Except PyExc Unit,
        get_method { s with max_retries := r, retry_delay := d } o = get_method s o ∧
        (get_method s o).2 ≤ 1) ∧
      (∀ o : Except PyExc Unit,
        exists_method { s with max_retries := r, retry_delay := d } o = exists_method s o ∧
        (exists_method s o).2 ≤ 1) ∧
      (∀ o : Except PyExc Unit,
        stat_method { s with max_retries := r, retry_delay := d } o = stat_method s o ∧
        (stat_method s o).2 ≤ 1) ∧
      (∀ o : Except PyExc (List String),
        listdir_method { s with max_retries := r, retry_delay := d } o = listdir_method s o ∧
        (listdir_method s o).2 ≤ 1) ∧
      (∀ o : Except PyExc Unit,
        rmdir_method { s with max_retries := r, retry_delay := d } o = rmdir_method s o ∧
        (rmdir_method s o).2 ≤ 1) ∧
      (∀ o : Except PyExc Unit,
        remove_method { s with max_retries := r, retry_delay := d } o = remove_method s o ∧
        (remove_method s o).2 ≤ 1) ∧
      (∀ (fs : RemoteFS) (p : PyPath),
        mkdir_method { s with max_retries := r, retry_delay := d } fs p = mkdir_method s fs p ∧
        (mkdir_method s fs p).2 ≤ 1) ∧
      (∀ (fs : RemoteFS) (root : Option LocalEntry) (base : PyPath),
        put_dir_method { s with max_retries := r, retry_delay := d } fs root base =
          put_dir_method s fs root base) ∧
      (∀ children : RemoteListing,
        get_dir_method { s with max_retries := r, retry_delay := d } children =
          get_dir_method s children) ∧
      (close_method { s with max_retries := r, retry_delay := d } = close_method s ∧
        ((close_method s).toOption.getD []).count "sftp.close" ≤ 1 ∧
        ((close_method s).toOption.getD []).count "client.close" ≤ 1) ∧
      (∀ o : ConnectOutcome,
        errKind (connect_method { s with max_retries := r, retry_delay := d } o) =
          errKind (connect_method s o)) := by
  intro s r d
  refine ⟨fun lk o => ⟨put_method_handle_congr _ _ rfl lk o, put_method_count s lk o⟩,
    fun o => ⟨rfl, ?_⟩, fun o => ⟨rfl, exists_method_count s o⟩, fun o => ⟨rfl, ?_⟩,
    fun o => ⟨rfl, ?_⟩, fun o => ⟨rfl, ?_⟩, fun o => ⟨rfl, ?_⟩,
    fun fs p => ⟨mkdir_method_handle_congr _ _ rfl fs p, ?_⟩,
    fun fs root base => ?_,
    fun children => get_dir_method_handle_congr
      { s with max_retries := r, retry_delay := d } s rfl children,
    ⟨rfl, ?_, ?_⟩, fun o => ?_⟩
  · by_cases hs : s.sftpHandle = true
    · cases o <;> simp [get_method, hs]
    · simp [get_method, hs]
  · by_cases hs : s.sftpHandle = true
    · cases o <;> simp [stat_method, hs]
    · simp [stat_method, hs]
  · by_cases hs : s.sftpHandle = true
    · cases o <;> simp [listdir_method, hs]
    · simp [listdir_method, hs]
  · by_cases hs : s.sftpHandle = true
    · cases o <;> simp [rmdir_method, hs]
    · simp [rmdir_method, hs]
  · by_cases hs : s.sftpHandle = true
    · cases o <;> simp [remove_method, hs]
    · simp [remove_method, hs]
  · by_cases hs : s.sftpHandle = true
    · cases hmk : sftp_mkdir fs p <;> simp [mkdir_method, hs, hmk]
    · simp [mkdir_method, hs]
  · cases root with
    | none => rfl
    | some entry =>
      cases entry with
      | file => rfl
      | dir cs =>
        exact put_dir_go_handle_congr (filesUnder cs)
          { s with max_retries := r, retry_delay := d } s rfl base fs 0
  · by_cases h1 : s.sftpHandle = true <;> by_cases h2 : s.clientHandle = true <;>
      simp [close_method, h1, h2] <;> decide
  · by_cases h1 : s.sftpHandle = true <;> by_cases h2 : s.clientHandle = true <;>
      simp [close_method, h1, h2] <;> decide
  · cases o with
    | success => rfl
    | raised e => cases e <;> rfl

/-- Helper: `put` never raises the custom `PermissionError`. -/
theorem put_method_no_permission {σ : Type} (s : AsyncSFTP) (lk : Option LocalKind)
    (o : Except PyExc σ) : raisedPermission (put_method s lk o).1 = false := by
  cases lk with
  | none => rfl
  | some k =>
    by_cases hs : s.sftpHandle = true
    · cases o <;> simp [put_method, hs, raisedPermission]
    · simp [put_method, hs, raisedPermission]

/-- Helper: `mkdir` never raises the custom `PermissionError`. -/
theorem mkdir_method_no_permission (s : AsyncSFTP) (fs : RemoteFS) (p : PyPath) :
    raisedPermission (mkdir_method s fs p).1 = false := by
  by_cases hs : s.sftpHandle = true
  · cases hmk : sftp_mkdir fs p <;> simp [mkdir_method, hs, hmk, raisedPermission]
  · simp [mkdir_method, hs, raisedPermission]

/-- Helper: the `put_dir` loop never raises the custom
`PermissionError`. -/
theorem put_dir_go_no_permission (files : List PyPath) (s : AsyncSFTP) (base : PyPath) :
    ∀ (fs : RemoteFS) (n : Nat), raisedPermission (put_dir_go s base fs files n).1 = false := by
  induction files with
  | nil => intro fs n; rfl
  | cons rel rest ih =>
    intro fs n
    simp only [put_dir_go]
    split
    · rename_i e k1 heq
      have hm := mkdir_method_no_permission s fs (base ++ rel).dropLast
      rw [heq] at hm
      exact hm
    · rename_i fs1 k1 heq
      split
      · rename_i e k2 heq2
        have hp := put_method_no_permission s (some LocalKind.regular)
          (sftp_put_file fs1 (base ++ rel))
        rw [heq2] at hp
        exact hp
      · rename_i fs2 k2 heq2
        exact ih fs2 (n + k1 + k2)

/-- Helper: `listdir` never raises the custom `PermissionError`. -/
theorem listdir_method_no_permission (s : AsyncSFTP) (o : Except PyExc (List String)) :
    raisedPermission (listdir_method s o).1 = false := by
  by_cases hs : s.sftpHandle = true
  · cases o <;> simp [listdir_method, hs, raisedPermission]
  · simp [listdir_method, hs, raisedPermission]

/-- Helper: the `listdir`-then-loop sequencing of `get_dir` never raises
the custom `PermissionError` when neither component does. -/
theorem listdir_then_no_permission (ld : Except SFTPRaise (List String) × Nat)
    (items : Except SFTPRaise Unit × Nat) (h1 : raisedPermission ld.1 = false)
    (h2 : raisedPermission items.1 = false) :
    raisedPermission (listdir_then ld items).1 = false := by
  obtain ⟨lr, lk⟩ := ld
  cases lr with
  | error e => cases e <;> simp_all [listdir_then, raisedPermission]
  | ok v =>
    obtain ⟨r, k2⟩ := items
    simpa [listdir_then] using h2

/-- Helper: one item of the `get_dir` loop never raises the custom
`PermissionError` — a failing branch is re-wrapped as `FileTransferError`
whatever it was — provided the rest of the loop does not. -/
theorem item_step_no_permission (res : Except SFTPRaise Unit × Nat) (k : Nat)
    (cont : Except SFTPRaise Unit × Nat) (hc : raisedPermission cont.1 = false) :
    raisedPermission (item_step res k cont).1 = false := by
  obtain ⟨r, k2⟩ := res
  cases r with
  | error e => rfl
  | ok v => exact hc

/-- Helper: the `get_dir` walk never raises the custom
`PermissionError`. -/
theorem get_dir_items_no_permission (s : AsyncSFTP) :
    (l : RemoteListing) → raisedPermission (get_dir_items s l).1 = false
  | RemoteListing.nil => by simp [get_dir_items, raisedPermission]
  | RemoteListing.cons name entry rest => by
    simp only [get_dir_items]
    split
    · rfl
    · by_cases hs : s.sftpHandle = true
      · simp only [if_pos hs]
        exact item_step_no_permission _ _ _ (get_dir_items_no_permission s rest)
      · simp only [if_neg hs]
        rfl

/-- Claim C10 (implicit): the custom `PermissionError` of `exceptions.py`
is unreachable — no public operation of the session, the recursive
`put_dir` and `get_dir` walks included, ever raises it — and a
permission-denied failure of the transport surfaces as `FileTransferError`
from `put`/`get` and as the base `AsyncSFTPError` from the metadata
operations. -/
theorem C10_permission_error_unreachable :
    (∀ (s : AsyncSFTP) (o : ConnectOutcome), raisedPermission (connect_method s o) = false) ∧
    (∀ s : AsyncSFTP, raisedPermission (close_method s) = false) ∧
    (∀ (s : AsyncSFTP) (lk : Option LocalKind) (o : Except PyExc Unit),
      raisedPermission (put_method s lk o).1 = false) ∧
    (∀ (s : AsyncSFTP) (o : Except PyExc Unit), raisedPermission (get_method s o).1 = false) ∧
    (∀ (s : AsyncSFTP) (o : Except PyExc Unit), raisedPermission (exists_method s o).1 = false) ∧
    (∀ (s : AsyncSFTP) (o : Except PyExc Unit), raisedPermission (stat_method s o).1 = false) ∧
    (∀ (s : AsyncSFTP) (o : Except PyExc (List String)),
      raisedPermission (listdir_method s o).1 = false) ∧
    (∀ (s : AsyncSFTP) (o : Except PyExc Unit), raisedPermission (rmdir_method s o).1 = false) ∧
    (∀ (s : AsyncSFTP) (o : Except PyExc Unit), raisedPermission (remove_method s o).1 = false) ∧
    (∀ (s : AsyncSFTP) (fs : RemoteFS) (p : PyPath),
      raisedPermission (mkdir_method s fs p).1 = false) ∧
    (∀ (s : AsyncSFTP) (fs : RemoteFS) (root : Option LocalEntry) (base : PyPath),
      raisedPermission (put_dir_method s fs root base).1 = false) ∧
    (∀ (s : AsyncSFTP) (children : RemoteListing),
      raisedPermission (get_dir_method s children).1 = false) ∧
    (∀ (s : AsyncSFTP) (m : String),
      errKind (put_method s (some LocalKind.regular)
        (Except.error (PyExc.permissionError m) : Except PyExc Unit)).1 =
        some RaiseKind.fileTransfer ∧
      errKind (get_method s (Except.error (PyExc.permissionError m))).1 =
        some RaiseKind.fileTransfer ∧
      errKind (exists_method s (Except.error (PyExc.permissionError m))).1 =
        some RaiseKind.base ∧
      errKind (stat_method s (Except.error (PyExc.permissionError m))).1 =
        some RaiseKind.base ∧
      errKind (listdir_method s (Except.error (PyExc.permissionError m))).1 =
        some RaiseKind.base) := by
  refine ⟨fun s o => ?_, fun s => rfl, put_method_no_permission, fun s o => ?_,
    fun s o => ?_, fun s o => ?_, fun s o => ?_, fun s o => ?_, fun s o => ?_,
    mkdir_method_no_permission, fun s fs root base => ?_,
    fun s children => listdir_then_no_permission _ _
      (listdir_method_no_permission s (Except.ok children.names))
      (get_dir_items_no_permission s children),
    fun s m => ?_⟩
  · cases o with
    | success => rfl
    | raised e => cases e <;> rfl
  · by_cases hs : s.sftpHandle = true
    · cases o <;> simp [get_method, hs, raisedPermission]
    · simp [get_method, hs, raisedPermission]
  · by_cases hs : s.sftpHandle = true
    · cases o with
      | ok v => simp [exists_method, hs, raisedPermission]
      | error e => cases e <;> simp [exists_method, hs, raisedPermission]
    · simp [exists_method, hs, raisedPermission]
  · by_cases hs : s.sftpHandle = true
    · cases o <;> simp [stat_method, hs, raisedPermission]
    · simp [stat_method, hs, raisedPermission]
  · by_cases hs : s.sftpHandle = true
    · cases o <;> simp [listdir_method, hs, raisedPermission]
    · simp [listdir_method, hs, raisedPermission]
  · by_cases hs : s.sftpHandle = true
    · cases o <;> simp [rmdir_method, hs, raisedPermission]
    · simp [rmdir_method, hs, raisedPermission]
  · by_cases hs : s.sftpHandle = true
    · cases o <;> simp [remove_method, hs, raisedPermission]
    · simp [remove_method, hs, raisedPermission]
  · cases root with
    | none => rfl
    | some entry =>
      cases entry with
      | file => rfl
      | dir cs => exact put_dir_go_no_permission (filesUnder cs) s base fs 0
  · by_cases hs : s.sftpHandle = true <;>
      simp [put_method, get_method, exists_method, stat_method, listdir_method, hs,
        errKind, SFTPRaise.kind]

end Sftpx
